import Mathlib

/-!
# Verification of the listing & detail resolution pipeline of `app.py`

Shallow embedding of the scraping backend (`src/app.py`).  Pure Python string
operations are translated to executable Lean functions over `List Char`;
the `re` substitutions used by `clean_title` are implemented by a small
backtracking matcher specialised to the shapes occurring in `TITLE_PATTERNS`
(case-insensitive literals, character-class stars, bounded repetitions,
ordered alternation of literals and the `$` end anchor).  Network access and
`BeautifulSoup` parsing are modelled as injected oracles (`Env`), and the
`functools.lru_cache` on `fetch_page` is modelled as an explicit
most-recently-used-first association list threaded through the functions,
together with a log of the upstream URLs actually fetched.
-/

set_option maxRecDepth 100000

namespace App

/-! ## Python string primitives -/

/-- Python `\s` / `str.strip` whitespace class (ASCII part, which is what the
regexes and inputs in `app.py` exercise). -/
def wsC (c : Char) : Bool :=
  c == ' ' || c == '\t' || c == '\n' || c == '\r' || c == '\x0b' || c == '\x0c'

/-- Python `\d` (ASCII digits). -/
def digitC (c : Char) : Bool := c.isDigit

/-- The dash alternatives `[-–—]` of the first pattern in `TITLE_PATTERNS`. -/
def dashC (c : Char) : Bool := c == '-' || c == '–' || c == '—'

/-- Case-insensitive character comparison, as under `re.IGNORECASE`. -/
def lowEq (a b : Char) : Bool := a.toLower == b.toLower

/-- `isPfx l s`: `l` is a literal prefix of `s`. -/
def isPfx : List Char → List Char → Bool
  | [], _ => true
  | _ :: _, [] => false
  | a :: as, b :: bs => a == b && isPfx as bs

/-- Case-insensitive prefix test. -/
def isPfxCI : List Char → List Char → Bool
  | [], _ => true
  | _ :: _, [] => false
  | a :: as, b :: bs => lowEq a b && isPfxCI as bs

/-- Drop a literal prefix, if present. -/
def dropLit (l s : List Char) : Option (List Char) :=
  if isPfx l s then some (s.drop l.length) else none

/-- Drop a case-insensitive literal prefix, if present. -/
def dropLitCI (l s : List Char) : Option (List Char) :=
  if isPfxCI l s then some (s.drop l.length) else none

/-- Python `sub in s` substring containment. -/
def containsSub (sub : List Char) : List Char → Bool
  | [] => isPfx sub []
  | c :: rest => isPfx sub (c :: rest) || containsSub sub rest

/-- Python `s.split(sep)` for a non-empty separator (fuelled; the fuel
`s.length + 1` always suffices since every step consumes at least one
character). -/
def splitOnAux (sep : List Char) : Nat → List Char → List Char → List (List Char)
  | 0, acc, s => [acc.reverse ++ s]
  | _ + 1, acc, [] => [acc.reverse]
  | f + 1, acc, c :: rest =>
    if isPfx sep (c :: rest) then
      acc.reverse :: splitOnAux sep f [] (List.drop sep.length (c :: rest))
    else
      splitOnAux sep f (c :: acc) rest

/-- Python `s.split(sep)` (string separator, as used on `href`s and
`data-mp4-link`). -/
def splitOnL (sep s : List Char) : List (List Char) :=
  splitOnAux sep (s.length + 1) [] s

/-- Python `str.strip()`. -/
def pyStrip (l : List Char) : List Char :=
  ((l.dropWhile wsC).reverse.dropWhile wsC).reverse

/-- `str.strip()` on `String`. -/
def pyStripS (s : String) : String := ⟨pyStrip s.data⟩

/-- Python `str.isdigit()` (ASCII): non-empty and all digits. -/
def pyIsDigitL (w : List Char) : Bool := !w.isEmpty && w.all digitC

/-- `str.isdigit()` on `String`. -/
def pyIsDigit (s : String) : Bool := pyIsDigitL s.data

/-- Python `str.split()` (no argument): split on whitespace runs, dropping
empty words.  `acc` holds the current word reversed. -/
def splitWsAux : List Char → List Char → List (List Char)
  | [], acc => if acc.isEmpty then [] else [acc.reverse]
  | c :: r, acc =>
    if wsC c then
      if acc.isEmpty then splitWsAux r [] else acc.reverse :: splitWsAux r []
    else splitWsAux r (c :: acc)

/-- Python `str.split()` with no argument. -/
def pySplitWs (l : List Char) : List (List Char) := splitWsAux l []

/-- Python `str.capitalize()`: first character uppercased, the rest lowered. -/
def capitalizeW : List Char → List Char
  | [] => []
  | c :: r => c.toUpper :: r.map Char.toLower

/-- Python `' '.join(ws)`. -/
def joinSpace : List (List Char) → List Char
  | [] => []
  | [w] => w
  | w :: ws => w ++ ' ' :: joinSpace ws

/-- Python `str.title()`: a cased character not preceded by a cased character
is uppercased, other cased characters are lowered. -/
def titleCaseAux : List Char → Bool → List Char
  | [], _ => []
  | c :: r, prev =>
    if c.isAlpha then
      (if prev then c.toLower else c.toUpper) :: titleCaseAux r true
    else c :: titleCaseAux r false

/-- `str.title()` on `String`. -/
def pyTitleCase (s : String) : String := ⟨titleCaseAux s.data false⟩

/-! ## `urllib.parse.unquote`

Percent-decoding: maximal runs of `%hh` escapes are decoded as UTF-8 byte
sequences (as CPython does); a `%` not followed by two hex digits stays
literal.  The decoder is exact on well-formed UTF-8; on malformed input it
emits U+FFFD per offending byte, which approximates CPython's
`errors='replace'` policy (no claim in this development depends on malformed
non-ASCII escapes). -/

/-- Hexadecimal digit value. -/
def hexV (c : Char) : Option Nat :=
  if '0' ≤ c ∧ c ≤ '9' then some (c.toNat - 48)
  else if 'a' ≤ c ∧ c ≤ 'f' then some (c.toNat - 87)
  else if 'A' ≤ c ∧ c ≤ 'F' then some (c.toNat - 55)
  else none

/-- Collect a maximal run of `%hh` escapes as byte values. -/
def pctRun : Nat → List Char → List Nat × List Char
  | 0, s => ([], s)
  | f + 1, '%' :: a :: b :: rest =>
    match hexV a, hexV b with
    | some x, some y =>
      let p := pctRun f rest
      ((x * 16 + y) :: p.1, p.2)
    | _, _ => ([], '%' :: a :: b :: rest)
  | _, s => ([], s)

/-- U+FFFD replacement character. -/
def replChar : Char := Char.ofNat 0xFFFD

/-- Continuation byte test. -/
def isCont (b : Nat) : Bool := 128 ≤ b && b ≤ 191

/-- UTF-8 decoding of a byte list, with replacement on error. -/
def utf8Dec : Nat → List Nat → List Char
  | 0, _ => []
  | _, [] => []
  | f + 1, b :: bs =>
    if b < 128 then Char.ofNat b :: utf8Dec f bs
    else if 194 ≤ b && b ≤ 223 then
      match bs with
      | c1 :: bs' =>
        if isCont c1 then Char.ofNat ((b - 192) * 64 + (c1 - 128)) :: utf8Dec f bs'
        else replChar :: utf8Dec f bs
      | [] => [replChar]
    else if 224 ≤ b && b ≤ 239 then
      match bs with
      | c1 :: c2 :: bs' =>
        if isCont c1 && isCont c2 &&
            (b ≠ 224 || 160 ≤ c1) && (b ≠ 237 || c1 ≤ 159) then
          Char.ofNat ((b - 224) * 4096 + (c1 - 128) * 64 + (c2 - 128)) :: utf8Dec f bs'
        else replChar :: utf8Dec f bs
      | _ => replChar :: utf8Dec f bs
    else if 240 ≤ b && b ≤ 244 then
      match bs with
      | c1 :: c2 :: c3 :: bs' =>
        if isCont c1 && isCont c2 && isCont c3 &&
            (b ≠ 240 || 144 ≤ c1) && (b ≠ 244 || c1 ≤ 143) then
          Char.ofNat ((b - 240) * 262144 + (c1 - 128) * 4096 + (c2 - 128) * 64 + (c3 - 128))
            :: utf8Dec f bs'
        else replChar :: utf8Dec f bs
      | _ => replChar :: utf8Dec f bs
    else replChar :: utf8Dec f bs

/-- `urllib.parse.unquote` on character lists. -/
def pyUnquoteL : Nat → List Char → List Char
  | 0, s => s
  | _ + 1, [] => []
  | f + 1, c :: rest =>
    if c = '%' then
      match pctRun (c :: rest).length (c :: rest) with
      | ([], _) => c :: pyUnquoteL f rest
      | (bs, rem) => utf8Dec bs.length bs ++ pyUnquoteL f rem
    else c :: pyUnquoteL f rest

/-- `urllib.parse.unquote`. -/
def pyUnquote (s : String) : String := ⟨pyUnquoteL s.data.length s.data⟩

/-! ## Regex matcher

A matcher for the fixed pattern shapes of `TITLE_PATTERNS`.  Preference order
follows CPython's `re`: literals are deterministic, `many` (a greedy
character-class star) tries the longest viable run first, ordered alternation
tries alternatives left to right and backtracks into later alternatives when
the continuation fails, and `strEnd` is the zero-width `$` (end of string, or
just before a final newline).  The `(?:...)?` groups of patterns 4 and 5 are
flattened into two top-level alternatives (group-present first); this is
equivalent here because the preceding elements match deterministically.
The fuel argument only bounds recursion; `engineFuel` is always sufficient
for these patterns. -/

inductive RElem where
  | lit : List Char → RElem
  | litCI : List Char → RElem
  | many : (Char → Bool) → RElem
  | upTo : (Char → Bool) → Nat → RElem
  | one : (Char → Bool) → RElem
  | exactly : (Char → Bool) → Nat → RElem
  | anyCI : List (List Char) → RElem
  | strEnd : RElem

/-- Match a sequence of elements against a prefix of `s`, returning the
remaining suffix of the preferred match. -/
def matchSeqF : Nat → List RElem → List Char → Option (List Char)
  | 0, _, _ => none
  | _ + 1, [], s => some s
  | f + 1, .lit l :: es, s =>
    match dropLit l s with
    | some r => matchSeqF f es r
    | none => none
  | f + 1, .litCI l :: es, s =>
    match dropLitCI l s with
    | some r => matchSeqF f es r
    | none => none
  | f + 1, .many p :: es, s => matchSeqF f (.upTo p (s.takeWhile p).length :: es) s
  | f + 1, .upTo _ 0 :: es, s => matchSeqF f es s
  | f + 1, .upTo p (k + 1) :: es, s =>
    (matchSeqF f es (s.drop (k + 1))) <|> matchSeqF f (.upTo p k :: es) s
  | _ + 1, .one _ :: _, [] => none
  | f + 1, .one p :: es, c :: s => if p c then matchSeqF f es s else none
  | f + 1, .exactly p n :: es, s =>
    if n ≤ s.length ∧ (s.take n).all p then matchSeqF f es (s.drop n) else none
  | _ + 1, .anyCI [] :: _, _ => none
  | f + 1, .anyCI (l :: ls) :: es, s =>
    match dropLitCI l s with
    | some r => (matchSeqF f es r) <|> matchSeqF f (.anyCI ls :: es) s
    | none => matchSeqF f (.anyCI ls :: es) s
  | f + 1, .strEnd :: es, s =>
    if s = [] ∨ s = ['\n'] then matchSeqF f es s else none

/-- Try top-level alternatives in order. -/
def matchAltsF (f : Nat) : List (List RElem) → List Char → Option (List Char)
  | [], _ => none
  | a :: as, s => (matchSeqF f a s) <|> matchAltsF f as s

/-- Fuel that always suffices for the patterns of `TITLE_PATTERNS`. -/
def engineFuel (s : List Char) : Nat := 40 * s.length + 400

/-- Length of the preferred match of `pats` at the start of `s`, if any. -/
def matchLen (pats : List (List RElem)) (s : List Char) : Option Nat :=
  (matchAltsF (engineFuel s) pats s).map (fun r => s.length - r.length)

/-- `re.sub(pattern, '', s)` for an unanchored pattern: scan positions left to
right, delete each leftmost preferred match, continue after it (no pattern in
`TITLE_PATTERNS` can match the empty string). -/
def subAllF (pats : List (List RElem)) : Nat → List Char → List Char
  | 0, s => s
  | _ + 1, [] => []
  | f + 1, c :: rest =>
    match matchLen pats (c :: rest) with
    | some (l + 1) => subAllF pats f (List.drop l rest)
    | _ => c :: subAllF pats f rest

/-- `re.sub(pattern, '', s)`, unanchored. -/
def subAll (pats : List (List RElem)) (s : List Char) : List Char :=
  subAllF pats (s.length + 1) s

/-- `re.sub(pattern, '', s)` for a `^`-anchored pattern: at most one
replacement, at position 0. -/
def subStart (pats : List (List RElem)) (s : List Char) : List Char :=
  match matchLen pats s with
  | some l => s.drop l
  | none => s

/-! ## `TITLE_PATTERNS` and `clean_title` -/

/-- One compiled substitution of `TITLE_PATTERNS`: pattern (as ordered
top-level alternatives) and whether it is `^`-anchored.  Every replacement in
the source table is the empty string. -/
structure Subst where
  anchored : Bool
  pat : List (List RElem)

/-- Apply one substitution, as `pattern.sub('', title)` does. -/
def applySub (sb : Subst) (s : List Char) : List Char :=
  if sb.anchored then subStart sb.pat s else subAll sb.pat s

/-- The language names of the alternation in patterns 3 and 4, in source
order. -/
def langWords : List (List Char) :=
  ["tamil", "hindi", "telugu", "malayalam", "kannada",
   "bengali", "marathi", "punjabi"].map String.data

/-- `(?:HD|SD)`. -/
def hdsd : List (List Char) := [['h', 'd'], ['s', 'd']]

/-- The optional tail `(?:\s*-\s*Watch Movies Online)?` of patterns 4 and 5. -/
def wmoTail : List RElem :=
  [.many wsC, .lit ['-'], .many wsC, .litCI "watch movies online".data]

/-- Pattern 1: `^Einthusan\s*[-–—]\s*` (IGNORECASE, anchored). -/
def pat1 : Subst :=
  ⟨true, [[.litCI "einthusan".data, .many wsC, .one dashC, .many wsC]]⟩

/-- Pattern 2: `\s*\(\d{4}\)\s*$`. -/
def pat2 : Subst :=
  ⟨false, [[.many wsC, .lit ['('], .exactly digitC 4, .lit [')'], .many wsC, .strEnd]]⟩

/-- Pattern 3: `\s*\[(Tamil|...|Punjabi)\]` (IGNORECASE, unanchored: every
occurrence is removed). -/
def pat3 : Subst :=
  ⟨false, [[.many wsC, .lit ['['], .anyCI langWords, .lit [']']]]⟩

/-- The mandatory part of pattern 4:
`\s*\(\d{4}\)\s*(?:Tamil|...)\s*in\s*(?:HD|SD)\s*-\s*Einthusan`. -/
def pat4Head : List RElem :=
  [.many wsC, .lit ['('], .exactly digitC 4, .lit [')'], .many wsC,
   .anyCI langWords, .many wsC, .litCI "in".data, .many wsC, .anyCI hdsd,
   .many wsC, .lit ['-'], .many wsC, .litCI "einthusan".data]

/-- Pattern 4, with its optional `Watch Movies Online` tail flattened into two
alternatives (present first). -/
def pat4 : Subst :=
  ⟨false, [pat4Head ++ wmoTail ++ [.strEnd], pat4Head ++ [.strEnd]]⟩

/-- Pattern 5: `\|\s*Einthusan(?:\s*-\s*Watch Movies Online)?$` (IGNORECASE). -/
def pat5 : Subst :=
  ⟨false, [[.lit ['|'], .many wsC, .litCI "einthusan".data] ++ wmoTail ++ [.strEnd],
           [.lit ['|'], .many wsC, .litCI "einthusan".data, .strEnd]]⟩

/-- Pattern 6: `Watch Full Movie Online Free$` (IGNORECASE). -/
def pat6 : Subst := ⟨false, [[.litCI "watch full movie online free".data, .strEnd]]⟩

/-- Pattern 7: `Online Watch Free (?:HD|SD)$` (IGNORECASE). -/
def pat7 : Subst := ⟨false, [[.litCI "online watch free ".data, .anyCI hdsd, .strEnd]]⟩

/-- Pattern 8: `Free Movies Online$` (IGNORECASE). -/
def pat8 : Subst := ⟨false, [[.litCI "free movies online".data, .strEnd]]⟩

/-- The ordered substitution table `TITLE_PATTERNS` of `app.py`. -/
def TITLE_PATTERNS : List Subst := [pat1, pat2, pat3, pat4, pat5, pat6, pat7, pat8]

/-- The body of `clean_title` after the emptiness guard: strip, apply the
eight substitutions in order, strip again. -/
def cleanPass (t : List Char) : List Char :=
  pyStrip (TITLE_PATTERNS.foldl (fun acc sb => applySub sb acc) (pyStrip t))

/-- `clean_title(title)` of `app.py`.  The argument is `Option String` because
Python callers pass either a string or `None`; `if not title: return None`
maps `None` and the empty string to `None`. -/
def clean_title : Option String → Option String
  | none => none
  | some t => if t = "" then none else some ⟨cleanPass t.data⟩

/-! ## Page fetching and its `lru_cache`

`fetch_page` is decorated with `@lru_cache(maxsize=128)`: results (including
the `None` returned on a failed request) are memoized by exact URL in a
128-entry least-recently-used cache.  The cache is modelled as an association
list with the most recently used entry first; the network is the oracle
`Env.net` (`none` models a `requests.RequestException`, i.e. a connection
error, timeout or non-2xx status).  Each fetching function additionally
returns the list of URLs for which an actual upstream request was made. -/

/-- Raw page bytes. -/
abbrev Content := String

/-- The `lru_cache` state of `fetch_page`, most recently used first. -/
abbrev Cache := List (String × Option Content)

/-- A parsed markup element: its attributes and its text. -/
structure Tag where
  attrs : List (String × String)
  text : String
  deriving DecidableEq

/-- `tag.get(key)` / `tag[key]` attribute lookup (`none` models a missing
attribute). -/
def Tag.getAttr (t : Tag) (k : String) : Option String :=
  (t.attrs.find? (fun p => p.1 == k)).map Prod.snd

/-- The parts of one listing-page movie block that `process_movie_block`
reads: `div.find('a')`, `div.find('img')` and
`div.find('div', class_='title')`. -/
structure Block where
  link : Option Tag
  img : Option Tag
  titleDiv : Option Tag
  deriving DecidableEq

/-- The parts of a detail page that `get_title_from_movie_page` reads:
the `og:title` meta content, the `title` element text and the first `h1`
text (each `none` when the element — or, for the meta tag, its `content`
attribute — is absent). -/
structure DetailDoc where
  ogTitle : Option String
  docTitle : Option String
  h1 : Option String
  deriving DecidableEq

/-- External collaborators: the network and the `BeautifulSoup` parses of
listing and detail pages. -/
structure Env where
  net : String → Option Content
  parseBlocks : Content → List Block
  parseDetail : Content → DetailDoc

/-- Cache lookup by exact URL. -/
def cacheGet (c : Cache) (u : String) : Option (Option Content) :=
  (c.find? (fun e => e.1 == u)).map Prod.snd

/-- Move a hit entry to the most-recently-used position, as `lru_cache`
does. -/
def promote (c : Cache) (u : String) : Cache :=
  match c.find? (fun e => e.1 == u) with
  | none => c
  | some e => e :: c.filter (fun x => !(x.1 == u))

/-- `fetch_page(url)`: on a cache hit return the memoized value (even a
memoized `None`) without touching the network; on a miss perform one upstream
request, memoize its outcome and evict the least recently used entry beyond
128. -/
def fetch_page (env : Env) (c : Cache) (u : String) :
    Option Content × Cache × List String :=
  match cacheGet c u with
  | some v => (v, promote c u, [])
  | none => (env.net u, ((u, env.net u) :: c).take 128, [u])

/-- Python truthiness of an optional string (`None` and `''` are falsy). -/
def truthyS : Option String → Bool
  | none => false
  | some s => s != ""

/-- The priority chain of `get_title_from_movie_page` over a parsed detail
page: og:title content, then stripped `title` text, then stripped `h1` text,
each passed through `clean_title`. -/
def detailTitle (d : DetailDoc) : Option String :=
  if truthyS d.ogTitle then clean_title d.ogTitle
  else if truthyS (d.docTitle.map pyStripS) then clean_title (d.docTitle.map pyStripS)
  else if truthyS (d.h1.map pyStripS) then clean_title (d.h1.map pyStripS)
  else none

/-- `get_title_from_movie_page(page_url, page_content)`:  uses the pre-fetched
content if truthy, otherwise calls `fetch_page`; returns `None` when the
content is falsy. -/
def get_title_from_movie_page (env : Env) (c : Cache) (page_url : String)
    (page_content : Option Content) : Option String × Cache × List String :=
  match (if truthyS page_content then (page_content, c, ([] : List String))
         else fetch_page env c page_url) with
  | (content, c1, lg) =>
    match content with
    | none => (none, c1, lg)
    | some s =>
      if s = "" then (none, c1, lg)
      else (detailTitle (env.parseDetail s), c1, lg)

/-! ## Per-block title resolution -/

/-- Exceptions that can escape the translated fragments. -/
inductive PyErr where
  | keyError : String → PyErr
  | indexError : PyErr
  deriving DecidableEq

/-- One accepted candidate of the `title_sources` loop: the extracted text
must be truthy, and its cleaned form truthy, longer than 3 characters and not
purely numeric. -/
def pickCand (extracted : String) : Option String :=
  if extracted = "" then none
  else
    match clean_title (some extracted) with
    | none => none
    | some cl =>
      if cl ≠ "" ∧ 3 < cl.length ∧ pyIsDigit cl = false then some cl else none

/-- The `title_sources` loop of `process_movie_block`: title-div text, then
img `alt`, then img `title`, first accepted candidate wins. -/
def titleFromSources (div : Block) (img_tag : Tag) : Option String :=
  (match div.titleDiv with
   | none => none
   | some t => pickCand (pyStripS t.text)) <|>
  pickCand (pyStripS ((img_tag.getAttr "alt").getD "")) <|>
  pickCand (pyStripS ((img_tag.getAttr "title").getD ""))

/-- The `/watch/` branch of the href fallback: percent-decode the slug,
hyphens to spaces, drop purely numeric words, capitalize and join; a truthy
result is assigned `clean_title` of itself (the guarded indexing cannot fail
because the branch is reached only when `'/watch/'` occurs in `href`, so the
`except` clause is dead). -/
def slugTitle (href : String) : Option String :=
  let slug := ((splitOnL "/watch/".data href.data).getD 1 []).takeWhile (fun c => c ≠ '/')
  let decoded := pyUnquoteL slug.length slug
  let words := pySplitWs (decoded.map (fun ch => if ch = '-' then ' ' else ch))
  let temp := joinSpace ((words.filter (fun w => !w.isEmpty && !pyIsDigitL w)).map capitalizeW)
  if temp.isEmpty then none else clean_title (some ⟨temp⟩)

/-- The `title=` branch of the href fallback: percent-decode the parameter
value, `+` to space, `str.title()`, then `clean_title`. -/
def qryTitle (href : String) : Option String :=
  let part := ((splitOnL "title=".data href.data).getD 1 []).takeWhile (fun c => c ≠ '&')
  let decoded := pyUnquoteL part.length part
  clean_title (some (pyTitleCase ⟨decoded.map (fun ch => if ch = '+' then ' ' else ch)⟩))

/-- The href-derived title candidate (lines 129–146 of `app.py`); the
`link_tag.has_attr('href')` guard is necessarily true here because the href
was already read at line 111. -/
def hrefTitle (href : String) : Option String :=
  if containsSub "/watch/".data href.data then slugTitle href
  else if containsSub "title=".data href.data then qryTitle href
  else none

/-- The refetch condition of line 148: falsy title, literal `Untitled`
values, purely numeric, or length at most 4. -/
def needsDetail : Option String → Bool
  | none => true
  | some s =>
    s == "" || s == "Untitled" || s == "Untitled Movie (Title Not Found)" ||
      (s != "" && (pyIsDigit s || decide (s.length ≤ 4)))

/-- One row of a listing result. -/
structure Movie where
  title : String
  img_url : String
  page_url : String
  deriving DecidableEq

/-- `process_movie_block(div)`.  Returns `ok none` for a dropped block
(missing link or image), `error` for the `KeyError` raised by
`link_tag['href']` or `img_tag['src']` on a tag without that attribute, and
`ok (some movie)` otherwise.  The href candidate is computed only when the
`title_sources` loop produced nothing, which `<|>` captures exactly because
`hrefTitle` is pure. -/
def process_movie_block (env : Env) (c : Cache) (div : Block) :
    Except PyErr (Option Movie) × Cache × List String :=
  match div.link, div.img with
  | none, _ => (Except.ok none, c, [])
  | some _, none => (Except.ok none, c, [])
  | some link_tag, some img_tag =>
    match link_tag.getAttr "href" with
    | none => (Except.error (PyErr.keyError "href"), c, [])
    | some href =>
      let page_url_full := "https://einthusan.tv" ++ href
      let title1 : Option String := titleFromSources div img_tag <|> hrefTitle href
      if needsDetail title1 then
        match get_title_from_movie_page env c page_url_full none with
        | (accurate, c2, lg) =>
          let finalT := if truthyS accurate then accurate.getD ""
                        else "Untitled Movie (Title Not Found)"
          match img_tag.getAttr "src" with
          | none => (Except.error (PyErr.keyError "src"), c2, lg)
          | some src => (Except.ok (some ⟨finalT, src, page_url_full⟩), c2, lg)
      else
        match img_tag.getAttr "src" with
        | none => (Except.error (PyErr.keyError "src"), c, [])
        | some src => (Except.ok (some ⟨title1.getD "", src, page_url_full⟩), c, [])

/-- The `executor.map(process_movie_block, movie_blocks)` +
`list(filter(None, ...))` step.  `ThreadPoolExecutor.map` yields results in
input order and re-raises the first worker exception in that order when the
results are collected, which is what the sequential fold produces; the
embedding fixes the sequential interleaving of the shared-cache effects. -/
def processBlocks (env : Env) : Cache → List Block →
    Except PyErr (List Movie) × Cache × List String
  | c, [] => (Except.ok [], c, [])
  | c, b :: bs =>
    match process_movie_block env c b with
    | (Except.error e, c1, l1) => (Except.error e, c1, l1)
    | (Except.ok mo, c1, l1) =>
      match processBlocks env c1 bs with
      | (Except.error e, c2, l2) => (Except.error e, c2, l1 ++ l2)
      | (Except.ok ms, c2, l2) =>
        (Except.ok (match mo with | none => ms | some m => m :: ms), c2, l1 ++ l2)

/-- `fetch_movies_by_url(url)`: fetch the listing page (through the
`fetch_page` cache), return `[]` on falsy content, otherwise process every
`div.block1` block. -/
def fetch_movies_by_url (env : Env) (c : Cache) (url : String) :
    Except PyErr (List Movie) × Cache × List String :=
  match fetch_page env c url with
  | (content, c1, l1) =>
    match content with
    | none => (Except.ok [], c1, l1)
    | some s =>
      if s = "" then (Except.ok [], c1, l1)
      else
        match processBlocks env c1 (env.parseBlocks s) with
        | (r, c2, l2) => (r, c2, l1 ++ l2)

/-! ## The listing endpoint -/

/-- The listing URL for `category == "popular"`. -/
def popularUrl (lang : String) (page : Int) : String :=
  "https://einthusan.tv/movie/results/?find=Popularity&lang=" ++ lang ++
    "&ptype=view&tp=alltime&page=" ++ toString page

/-- The listing URL for the default `recent` category. -/
def recentUrl (lang : String) (page : Int) : String :=
  "https://einthusan.tv/movie/results/?find=Recent&lang=" ++ lang ++ "&page=" ++ toString page

/-- The JSON envelope built by `get_movies_by_language`: it has exactly the
fields `language`, `category`, `page`, `movies` and `next_page`; `next_page`
is `page + 1` when `movies` is non-empty (truthy) and `null` otherwise. -/
structure ListingEnvelope where
  language : String
  category : String
  page : Int
  movies : List Movie
  next_page : Option Int
  deriving DecidableEq

/-- The category-to-URL selection of `get_movies_by_language` (any category
other than `popular` falls back to the recent URL). -/
def listingUrl (lang_code category : String) (page : Int) : String :=
  if category = "popular" then popularUrl lang_code page
  else recentUrl lang_code page

/-- The `/api/movies/<language>` handler after language resolution (lines
212–227 of `app.py`; the preceding `correct_spelling` fuzzy-matching and its
400 response are input validation outside the claims, and `LANGUAGE_CODES`
maps every resolved language to itself). -/
def get_movies_by_language (env : Env) (c : Cache) (lang_code category : String)
    (page : Int) : Except PyErr ListingEnvelope × Cache × List String :=
  match fetch_movies_by_url env c (listingUrl lang_code category page) with
  | (Except.error e, c1, l1) => (Except.error e, c1, l1)
  | (Except.ok movies, c1, l1) =>
    (Except.ok { language := lang_code, category := category, page := page,
                 movies := movies,
                 next_page := if movies.isEmpty then none else some (page + 1) },
     c1, l1)

/-- The listing call indexed by a wall-clock instant.  No function of
`app.py` reads a clock, so the call ignores `t`; the parameter exists to
state (and refute) the TTL claims of the specification. -/
def listingCallAt (_t : Nat) (env : Env) (c : Cache) (lang_code category : String)
    (page : Int) : Except PyErr ListingEnvelope × Cache × List String :=
  get_movies_by_language env c lang_code category page

/-! ## Video URL extraction -/

/-- `extract_video_url_from_content(page_content)`.  `findPlayer` models
`BeautifulSoup(...).find(id="UIVideoPlayer")` on the raw bytes.  When the
player carries a truthy `data-mp4-link`, the code evaluates
`mp4_link.split("etv")[1]`, which raises `IndexError` whenever the attribute
does not contain the substring `"etv"`. -/
def extract_video_url_from_content (findPlayer : Content → Option Tag)
    (page_content : Option Content) : Except PyErr (Option String) :=
  match page_content with
  | none => Except.ok none
  | some raw =>
    if raw = "" then Except.ok none
    else
      match findPlayer raw with
      | none => Except.ok none
      | some video_player =>
        match video_player.getAttr "data-mp4-link" with
        | none => Except.ok none
        | some mp4 =>
          if mp4 = "" then Except.ok none
          else
            match (splitOnL "etv".data mp4.data).get? 1 with
            | none => Except.error PyErr.indexError
            | some vd => Except.ok (some ("https://cdn1.einthusan.io/etv" ++ (⟨vd⟩ : String)))

deriving instance DecidableEq for Except

/-! ## Definitions following the specification's words

These two definitions are NOT translations of `app.py`; they formalise what
the specification text claims, so that the claims can be compared against the
code-side definitions above. -/

/-- Modelled from the spec: the thumbnail normalization of §4.4 — promote a
protocol-relative `//host/...` source to `https://`, keep an absolute source,
otherwise join against the site's base origin.  (`app.py` performs no such
step.) -/
def specThumbNormalize (base src : String) : String :=
  if isPfx "//".data src.data then "https:" ++ src
  else if isPfx "http://".data src.data || isPfx "https://".data src.data then src
  else base ++ src

/-- Modelled from the spec: "the raw page markup contains the data-attribute
pattern" of §4.6's fallback scan — the literal attribute name occurs in the
raw markup text. -/
def rawHasMp4Pattern (raw : String) : Bool :=
  containsSub "data-mp4-link".data raw.data

/-! ## Auxiliary predicates and concrete scenarios used by the theorems -/

/-- A block whose processing never reaches the detail-page fetch (so
`process_movie_block` touches neither the network nor the cache). -/
def blockNoDetail (b : Block) : Bool :=
  match b.link, b.img with
  | some lt, some it =>
    match lt.getAttr "href" with
    | none => true
    | some href => !needsDetail (titleFromSources b it <|> hrefTitle href)
  | _, _ => true

/-- An environment in which every request fails and pages are empty. -/
def emptyEnv : Env :=
  ⟨fun _ => none, fun _ => [], fun _ => ⟨none, none, none⟩⟩

/-- The popular-category page-1 URL for Tamil. -/
def url0 : String := popularUrl "tamil" 1

/-- Environment whose listing page parses to zero blocks (a zero-entry
extraction). -/
def env0 : Env :=
  ⟨fun _ => some "page", fun _ => [], fun _ => ⟨none, none, none⟩⟩

/-- The empty listing envelope produced by `env0`. -/
def envl0 : ListingEnvelope := ⟨"tamil", "popular", 1, [], none⟩

/-- A block with a usable `alt` title (no detail fetch needed). -/
def wBlock : Block :=
  ⟨some ⟨[("href", "/watch/m/1")], ""⟩,
   some ⟨[("src", "i.jpg"), ("alt", "A Great Movie")], ""⟩, none⟩

/-- Environment whose listing page parses to the single block `wBlock`. -/
def env1 : Env :=
  ⟨fun _ => some "L", fun _ => [wBlock], fun _ => ⟨none, none, none⟩⟩

/-- The movie extracted from `wBlock`. -/
def wMovie : Movie := ⟨"A Great Movie", "i.jpg", "https://einthusan.tv/watch/m/1"⟩

/-- The cache after one `env1` popular-page-1 listing call from empty. -/
def wCache : Cache := [(url0, some "L")]

/-- The envelope produced by an `env1` popular-page-1 listing call. -/
def wEnvl : ListingEnvelope := ⟨"tamil", "popular", 1, [wMovie], some 2⟩

/-- Synthetic listing URL for the C3 scenarios. -/
def listUrl : String := "https://example.test/list"

/-- A block with link and image but no title source anywhere and an href
yielding no candidate; its detail page is unreachable. -/
def bSent : Block :=
  ⟨some ⟨[("href", "/m/1")], ""⟩, some ⟨[("src", "s.jpg")], ""⟩, none⟩

/-- A block with a usable `alt` title. -/
def bGood : Block :=
  ⟨some ⟨[("href", "/m/2")], ""⟩,
   some ⟨[("src", "g.jpg"), ("alt", "Another Fine Film")], ""⟩, none⟩

/-- A block with a link but no image: dropped silently. -/
def bNoImg : Block := ⟨some ⟨[("href", "/m/3")], ""⟩, none, none⟩

/-- A block whose anchor has no `href` attribute, though both a link and an
image are present. -/
def bBad : Block := ⟨some ⟨[], ""⟩, some ⟨[("src", "x.jpg")], ""⟩, none⟩

/-- Environment for the synthetic listing `[bSent, bGood, bNoImg]`; only the
listing URL itself is reachable. -/
def env3 : Env :=
  ⟨fun u => if u == listUrl then some "page" else none,
   fun _ => [bSent, bGood, bNoImg], fun _ => ⟨none, none, none⟩⟩

/-- Environment for the single-block listing `[bBad]`. -/
def envB : Env :=
  ⟨fun u => if u == listUrl then some "page" else none,
   fun _ => [bBad], fun _ => ⟨none, none, none⟩⟩

/-- A player tag whose `data-mp4-link` lacks the `"etv"` marker. -/
def c2Player : Tag := ⟨[("data-mp4-link", "https://other.example.com/v.mp4")], ""⟩

/-- Detail-page markup containing such a player element. -/
def c2Raw : Content :=
  "<div id=\"UIVideoPlayer\" data-mp4-link=\"https://other.example.com/v.mp4\"></div>"

/-- Detail-page markup whose raw text contains both the data-attribute
pattern and a script-variable assignment, but no element with id
`UIVideoPlayer` (the strings sit inside a script), so its parse yields no
player. -/
def c6Raw : Content :=
  "<script>var mp4Link = \"https://cdn1.einthusan.io/etv/x.mp4\"; var attr = \"data-mp4-link\";</script>"

/-- A block whose image source is protocol-relative and whose `alt` already
yields a title. -/
def c5Block : Block :=
  ⟨some ⟨[("href", "/m/9")], ""⟩,
   some ⟨[("src", "//cdn.example.com/p.jpg"), ("alt", "Some Long Title")], ""⟩, none⟩

/-- A block whose only title source is a short `/watch/` slug (`go-2023`)
and whose detail page is unreachable. -/
def c10Bad : Block :=
  ⟨some ⟨[("href", "/watch/go-2023/abc")], ""⟩, some ⟨[("src", "g.jpg")], ""⟩, none⟩

/-- A block whose `/watch/` slug yields a long title candidate. -/
def c10Good : Block :=
  ⟨some ⟨[("href", "/watch/super-hero-film-2024/x")], ""⟩,
   some ⟨[("src", "i.jpg")], ""⟩, none⟩

/-! ## Helper lemmas -/

/-- A block that needs no detail fetch is processed without touching the
network or the cache, and its result does not depend on the environment or
cache. -/
theorem process_movie_block_stable (env env' : Env) (c c' : Cache) (b : Block)
    (h : blockNoDetail b = true) :
    process_movie_block env c b = ((process_movie_block env' c' b).1, c, []) := by
  obtain ⟨bl, bi, bt⟩ := b
  cases bl with
  | none => rfl
  | some lt =>
    cases bi with
    | none => rfl
    | some it =>
      unfold blockNoDetail at h
      dsimp only at h
      cases hh : lt.getAttr "href" with
      | none => simp [process_movie_block, hh]
      | some href =>
        rw [hh] at h
        simp only [Bool.not_eq_true'] at h
        simp only [process_movie_block, hh, h, Bool.false_eq_true, if_false]
        cases it.getAttr "src" <;> rfl

/-- `processBlocks` over blocks needing no detail fetch leaves the cache
unchanged, performs no request, and yields an environment- and
cache-independent result. -/
theorem processBlocks_stable (env env' : Env) (bs : List Block) :
    ∀ c c' : Cache, (∀ b ∈ bs, blockNoDetail b = true) →
      processBlocks env c bs = ((processBlocks env' c' bs).1, c, []) := by
  induction bs with
  | nil => intro c c' _; rfl
  | cons b bs ih =>
    intro c c' h
    have hb : blockNoDetail b = true := h b (List.mem_cons_self b bs)
    have hrest : ∀ x ∈ bs, blockNoDetail x = true :=
      fun x hx => h x (List.mem_cons_of_mem b hx)
    rcases hp : process_movie_block env' c' b with ⟨r', cc', ll'⟩
    have h1 : process_movie_block env c b = (r', c, []) := by
      rw [process_movie_block_stable env env' c c' b hb, hp]
    rw [processBlocks, processBlocks, h1, hp]
    cases r' with
    | error e => rfl
    | ok mo =>
      rcases hq : processBlocks env' cc' bs with ⟨r2, d2, l2⟩
      have h2 : processBlocks env c bs = (r2, c, []) := by
        rw [ih c cc' hrest, hq]
      dsimp only
      rw [h2, hq]
      cases r2 <;> simp

/-- The body of `fetch_movies_by_url`, as a rewriting equation. -/
theorem fetch_movies_by_url_eq (env : Env) (c : Cache) (url : String) :
    fetch_movies_by_url env c url =
      (match fetch_page env c url with
       | (content, c1, l1) =>
         match content with
         | none => (Except.ok [], c1, l1)
         | some s =>
           if s = "" then (Except.ok [], c1, l1)
           else
             match processBlocks env c1 (env.parseBlocks s) with
             | (r, c2, l2) => (r, c2, l1 ++ l2)) := rfl

/-- A listing fetch whose blocks need no detail fetch: the first call from an
empty cache performs exactly the one listing request and leaves the page
memoized; a repeat call against that cache performs no request and returns
the same value. -/
theorem fetch_movies_stable (env : Env) (url : String)
    (hnd : ∀ s, env.net url = some s → ∀ b ∈ env.parseBlocks s, blockNoDetail b = true) :
    ∃ r, fetch_movies_by_url env [] url = (r, [(url, env.net url)], [url]) ∧
      fetch_movies_by_url env [(url, env.net url)] url = (r, [(url, env.net url)], []) := by
  have hmiss : fetch_page env [] url = (env.net url, [(url, env.net url)], [url]) := by
    simp [fetch_page, cacheGet]
  have hhit : fetch_page env [(url, env.net url)] url =
      (env.net url, [(url, env.net url)], []) := by
    simp [fetch_page, cacheGet, promote]
  cases hn : env.net url with
  | none =>
    rw [hn] at hmiss hhit
    refine ⟨Except.ok [], ?_, ?_⟩
    · rw [fetch_movies_by_url_eq, hmiss]
    · rw [fetch_movies_by_url_eq, hhit]
  | some s =>
    rw [hn] at hmiss hhit
    by_cases hs : s = ""
    · subst hs
      refine ⟨Except.ok [], ?_, ?_⟩
      · rw [fetch_movies_by_url_eq, hmiss]
        simp
      · rw [fetch_movies_by_url_eq, hhit]
        simp
    · have hb := hnd s hn
      have h2 := processBlocks_stable env env (env.parseBlocks s)
        [(url, some s)] [(url, some s)] hb
      refine ⟨(processBlocks env [(url, some s)] (env.parseBlocks s)).1, ?_, ?_⟩
      · rw [fetch_movies_by_url_eq, hmiss]
        dsimp only
        rw [if_neg hs, h2]
        simp
      · rw [fetch_movies_by_url_eq, hhit]
        dsimp only
        rw [if_neg hs, h2]
        simp

/-- The body of `get_movies_by_language`, as a rewriting equation. -/
theorem get_movies_by_language_eq (env : Env) (c : Cache) (lang cat : String)
    (page : Int) :
    get_movies_by_language env c lang cat page =
      (match fetch_movies_by_url env c (listingUrl lang cat page) with
       | (Except.error e, c1, l1) => (Except.error e, c1, l1)
       | (Except.ok movies, c1, l1) =>
         (Except.ok { language := lang, category := cat, page := page,
                      movies := movies,
                      next_page := if movies.isEmpty then none else some (page + 1) },
          c1, l1)) := rfl

/-- The URL branch for the popular category. -/
theorem listingUrl_popular (lang : String) (page : Int) :
    listingUrl lang "popular" page = popularUrl lang page := by
  rw [listingUrl, if_pos rfl]

/-! ## Claim C1 -/

/-- C1 (counterexample): `app.py` has no TTL-based listing cache.  With a
zero-entry extraction (`env0` parses every page to no blocks), the first
popular-page-1 call fetches the listing URL once and memoizes its content in
the `fetch_page` LRU; a second call 4000 seconds later — beyond the claimed
3600-second TTL — performs **no** upstream fetch (empty request log), even
though the extraction yielded zero entries.  This refutes both the
"call after the TTL has expired performs a fresh upstream fetch" part and the
"an extraction that yields zero entries is never stored … still attempts a
fresh fetch" part of C1 (the embedded code reads no clock, so the time index
of `listingCallAt` cannot influence the result). -/
theorem C1_counterexample :
    listingCallAt 0 env0 [] "tamil" "popular" 1 =
      (Except.ok envl0, [(url0, some "page")], [url0]) ∧
    listingCallAt 4000 env0 [(url0, some "page")] "tamil" "popular" 1 =
      (Except.ok envl0, [(url0, some "page")], []) := by
  decide

/-- C1 (amended): listing results for the popular category are memoized only
through the URL-keyed `lru_cache` of `fetch_page`, with no TTL.  For any
environment whose listing blocks need no detail fetch, a first popular call
from an empty cache issues exactly one upstream request (for the listing
URL), and a second call with the same `(languageCode, page)` key at **any**
later instant — whether before or after 3600 seconds — issues no upstream
request and returns the identical result; this holds even when the
extraction yielded zero entries, because the page content (not the entry
list) is what is memoized. -/
theorem C1_amended (env : Env) (lang : String) (page : Int) (t1 t2 : Nat)
    (hnd : ∀ s, env.net (popularUrl lang page) = some s →
      ∀ b ∈ env.parseBlocks s, blockNoDetail b = true)
    (r1 : Except PyErr ListingEnvelope) (c1 : Cache) (l1 : List String)
    (h1 : listingCallAt t1 env [] lang "popular" page = (r1, c1, l1)) :
    listingCallAt t2 env c1 lang "popular" page = (r1, c1, []) ∧
      l1 = [popularUrl lang page] := by
  obtain ⟨r, hA, hB⟩ := fetch_movies_stable env (popularUrl lang page) hnd
  rw [listingCallAt, get_movies_by_language_eq, listingUrl_popular, hA] at h1
  cases r with
  | error e =>
    dsimp only at h1
    rw [Prod.mk.injEq, Prod.mk.injEq] at h1
    obtain ⟨hr, hc, hl⟩ := h1
    subst hr; subst hc; subst hl
    refine ⟨?_, rfl⟩
    rw [listingCallAt, get_movies_by_language_eq, listingUrl_popular, hB]
  | ok ms =>
    dsimp only at h1
    rw [Prod.mk.injEq, Prod.mk.injEq] at h1
    obtain ⟨hr, hc, hl⟩ := h1
    subst hr; subst hc; subst hl
    refine ⟨?_, rfl⟩
    rw [listingCallAt, get_movies_by_language_eq, listingUrl_popular, hB]

/-- C1 (witness): the amended theorem applied to the concrete environment
`env1` (one block with a usable `alt` title): the second call at instant
9999, against the cache left by the first call at instant 0, performs no
upstream request and returns the same envelope. -/
theorem C1_witness :
    listingCallAt 9999 env1 wCache "tamil" "popular" 1 =
      (Except.ok wEnvl, wCache, []) ∧ [url0] = [popularUrl "tamil" 1] := by
  refine C1_amended env1 "tamil" 1 0 9999 ?_ (Except.ok wEnvl) wCache [url0] (by decide)
  intro s hs b hb
  have hs' : (some "L" : Option Content) = some s := hs
  injection hs' with h2
  subst h2
  have hb' : b ∈ [wBlock] := hb
  rw [List.mem_singleton] at hb'
  subst hb'
  decide

/-! ## Claim C2 -/

/-- C2 (code evaluation at the failing input): on a detail page whose
`UIVideoPlayer` element is present but whose `data-mp4-link`
(`https://other.example.com/v.mp4`) does not contain the path marker
`"etv"`, `extract_video_url_from_content` evaluates
`mp4_link.split("etv")[1]` on a one-element list and raises `IndexError`
instead of returning a URL-or-`None`: the function is not total.  The
`findPlayer` oracle returns that player tag, as `BeautifulSoup` would on
`c2Raw`. -/
theorem C2_bug_eval :
    extract_video_url_from_content (fun _ => some c2Player) (some c2Raw) =
      Except.error PyErr.indexError := by
  decide

/-! ## Claim C3 -/

/-- C3 (code evaluation): the drop/order/sentinel behaviour holds on the
synthetic listing `[bSent, bGood, bNoImg]` — the block with no title source
and an unreachable detail page yields the sentinel title, the block with a
missing image is dropped, and the two surviving entries appear in block
order.  But the claim's "never fail the whole listing" part breaks on
`bBad`: a block that **does** contain a link and an image, where the anchor
merely lacks an `href` attribute, makes `link_tag['href']` raise `KeyError`,
which propagates out of `executor.map` and aborts the entire listing. -/
theorem C3_bug_eval :
    ((fetch_movies_by_url env3 [] listUrl).1 =
      Except.ok
        [⟨"Untitled Movie (Title Not Found)", "s.jpg", "https://einthusan.tv/m/1"⟩,
         ⟨"Another Fine Film", "g.jpg", "https://einthusan.tv/m/2"⟩]) ∧
    bBad.link ≠ none ∧ bBad.img ≠ none ∧
    (fetch_movies_by_url envB [] listUrl).1 = Except.error (PyErr.keyError "href") := by
  decide

/-! ## Claim C4 -/

/-- C4 (counterexample): `clean_title` on the whitespace-only string `" "`
returns the empty string `""`, not `None` — `if not title` only catches the
empty string, after which `strip()` turns the input into `""` and the
function returns it.  This refutes "returns None for … whitespace-only
input". -/
theorem C4_counterexample :
    clean_title (some " ") = some "" ∧ clean_title (some " ") ≠ none := by
  decide

/-- C4 (amended): `clean_title` returns `None` exactly for falsy input
(`None` or the empty string); a non-empty whitespace-only input yields the
empty **string**; and every input is mapped to a string, never to `None`,
once it is non-empty. -/
theorem C4_amended (s : String) :
    (clean_title (some s) = none ↔ s = "") ∧
    (s ≠ "" → (∀ c ∈ s.data, wsC c = true) → clean_title (some s) = some "") := by
  constructor
  · constructor
    · intro h
      by_contra hne
      rw [clean_title, if_neg hne] at h
      exact Option.noConfusion h
    · intro h
      rw [clean_title, if_pos h]
  · intro hne hws
    have h1 : pyStrip s.data = [] := by
      rw [pyStrip]
      rw [List.dropWhile_eq_nil_iff.mpr (fun x hx => hws x hx)]
      rfl
    have h2 : cleanPass s.data = [] := by
      rw [cleanPass, h1]
      decide
    rw [clean_title, if_neg hne, h2]

/-- C4 (witness): the amended theorem applied at the whitespace-only input
`" "`. -/
theorem C4_witness : clean_title (some " ") = some "" :=
  (C4_amended " ").2 (by decide) (by decide)

/-! ## Claim C5 -/

/-- C5 (counterexample): a block whose image `src` is the protocol-relative
URL `//cdn.example.com/p.jpg` is returned with exactly that thumbnail URL —
not the `https://`-promoted absolute URL the claim requires
(`specThumbNormalize` formalises the claimed normalization). -/
theorem C5_counterexample :
    (process_movie_block emptyEnv [] c5Block).1 =
      Except.ok (some ⟨"Some Long Title", "//cdn.example.com/p.jpg",
                       "https://einthusan.tv/m/9"⟩) ∧
    specThumbNormalize "https://einthusan.tv" "//cdn.example.com/p.jpg" =
      "https://cdn.example.com/p.jpg" ∧
    ("//cdn.example.com/p.jpg" : String) ≠ "https://cdn.example.com/p.jpg" := by
  decide

/-- C5 (amended): the thumbnail URL of every returned entry is the block's
image `src` attribute **verbatim** — no protocol-relative promotion, no
absolute-URL check, no joining against the base origin is performed. -/
theorem C5_amended (env : Env) (c : Cache) (b : Block) (m : Movie) (c2 : Cache)
    (lg : List String)
    (h : process_movie_block env c b = (Except.ok (some m), c2, lg)) :
    ∃ t : Tag, b.img = some t ∧ t.getAttr "src" = some m.img_url := by
  obtain ⟨bl, bi, bt⟩ := b
  cases bl with
  | none => simp [process_movie_block] at h
  | some lt =>
    cases bi with
    | none => simp [process_movie_block] at h
    | some it =>
      refine ⟨it, rfl, ?_⟩
      cases hh : lt.getAttr "href" with
      | none => simp [process_movie_block, hh] at h
      | some href =>
        simp only [process_movie_block, hh] at h
        split at h
        · rcases hg : get_title_from_movie_page env c ("https://einthusan.tv" ++ href) none
            with ⟨acc, cc, lgg⟩
          rw [hg] at h
          dsimp only at h
          cases hs : it.getAttr "src" with
          | none => rw [hs] at h; exact absurd h (by simp)
          | some src =>
            rw [hs] at h
            dsimp only at h
            rw [Prod.mk.injEq, Prod.mk.injEq, Except.ok.injEq, Option.some.injEq] at h
            obtain ⟨hm, _, _⟩ := h
            subst hm
            rfl
        · cases hs : it.getAttr "src" with
          | none => rw [hs] at h; exact absurd h (by simp)
          | some src =>
            rw [hs] at h
            dsimp only at h
            rw [Prod.mk.injEq, Prod.mk.injEq, Except.ok.injEq, Option.some.injEq] at h
            obtain ⟨hm, _, _⟩ := h
            subst hm
            rfl

/-- C5 (witness): the amended theorem applied to `c5Block`. -/
theorem C5_witness :
    ∃ t : Tag, c5Block.img = some t ∧
      t.getAttr "src" = some "//cdn.example.com/p.jpg" :=
  C5_amended emptyEnv [] c5Block
    ⟨"Some Long Title", "//cdn.example.com/p.jpg", "https://einthusan.tv/m/9"⟩
    [] [] (by decide)

/-! ## Claim C6 -/

/-- C6 (counterexample): `c6Raw` contains the data-attribute pattern in its
raw markup (`rawHasMp4Pattern` — and an inline script-variable assignment as
well), yet with the structured `UIVideoPlayer` element absent the resolver
returns `ok none` instead of a URL: there is no raw-text fallback scan. -/
theorem C6_counterexample :
    rawHasMp4Pattern c6Raw = true ∧
    extract_video_url_from_content (fun _ => none) (some c6Raw) = Except.ok none := by
  decide

/-- C6 (amended): `extract_video_url_from_content` consults only the
structured player element; whenever that element is absent the result is
`None`, regardless of what the raw page markup contains — the claimed
raw-text data-attribute and script-variable fallback scans do not exist. -/
theorem C6_amended (findPlayer : Content → Option Tag) (raw : Content)
    (h : findPlayer raw = none) :
    extract_video_url_from_content findPlayer (some raw) = Except.ok none := by
  rw [extract_video_url_from_content]
  split
  · rfl
  · rw [h]

/-- C6 (witness): the amended theorem at a concrete page. -/
theorem C6_witness :
    extract_video_url_from_content (fun _ => none) (some "<p>x</p>") = Except.ok none :=
  C6_amended (fun _ => none) "<p>x</p>" rfl

/-! ## Claim C7 -/

/-- C7 (counterexample): the listing envelope has no `hasMore` field at all
(`ListingEnvelope` carries exactly the five keys built at lines 221-227 of
`app.py`), and `next_page` is not always an integer: a popular-page-1 call
whose extraction is empty returns `next_page = null`. -/
theorem C7_counterexample :
    listingCallAt 0 env0 [] "tamil" "popular" 1 =
      (Except.ok envl0, [(url0, some "page")], [url0]) ∧
    envl0.next_page = none := by
  decide

/-- C7 (amended): the envelope contains no boolean `hasMore`; the
end-of-listing signal is carried by `next_page`, which equals `page + 1`
exactly when the page's movie list is non-empty and is `null` exactly when
it is empty. -/
theorem C7_amended (env : Env) (c : Cache) (lang cat : String) (page : Int)
    (e : ListingEnvelope) (c2 : Cache) (lg : List String)
    (h : get_movies_by_language env c lang cat page = (Except.ok e, c2, lg)) :
    ((e.next_page = some (page + 1)) ↔ e.movies ≠ []) ∧
      ((e.next_page = none) ↔ e.movies = []) := by
  rw [get_movies_by_language_eq] at h
  rcases hf : fetch_movies_by_url env c (listingUrl lang cat page) with ⟨r, cc, ll⟩
  rw [hf] at h
  cases r with
  | error e2 => exact absurd h (by simp)
  | ok ms =>
    dsimp only at h
    rw [Prod.mk.injEq, Prod.mk.injEq, Except.ok.injEq] at h
    obtain ⟨he, _, _⟩ := h
    subst he
    cases ms with
    | nil => simp
    | cons m ms => simp

/-- C7 (witness): the amended theorem applied to the empty `env0` listing. -/
theorem C7_witness :
    ((envl0.next_page = some 2) ↔ envl0.movies ≠ []) ∧
      ((envl0.next_page = none) ↔ envl0.movies = []) :=
  C7_amended env0 [] "tamil" "popular" 1 envl0 [(url0, some "page")] [url0] (by decide)

/-! ## Claim C8 -/

/-- C8 (counterexample): `clean_title` is not idempotent.  The title
`"Watch Full Movie Online Free"` cleans to the empty string (pattern 6
deletes the whole text), but cleaning that result gives `None` (the
emptiness guard), so `normalize (normalize x) ≠ normalize x`. -/
theorem C8_counterexample :
    clean_title (clean_title (some "Watch Full Movie Online Free")) ≠
      clean_title (some "Watch Full Movie Online Free") := by
  decide

/-- C8 (amended): `clean_title` is idempotent exactly on the inputs whose
normalization is `None` or a non-empty string that the strip-substitute-strip
cleanup pass leaves unchanged (in particular, already-clean titles pass
through a second `clean_title` unchanged).  Equivalently: idempotence fails
precisely when the first normalization yields the empty string (which a
second pass turns into `None`) or a non-fixpoint of the cleanup pass (which
a second pass cleans further), as the counterexample exhibits. -/
theorem C8_amended (x : Option String) :
    clean_title (clean_title x) = clean_title x ↔
      clean_title x = none ∨
        ∃ y : String, clean_title x = some y ∧ y ≠ "" ∧ cleanPass y.data = y.data := by
  cases hx : clean_title x with
  | none => simp [clean_title]
  | some y =>
    by_cases hy : y = ""
    · subst hy
      constructor
      · intro h
        rw [clean_title, if_pos rfl] at h
        exact Option.noConfusion h
      · rintro (h | ⟨z, hz, hne, _⟩)
        · exact Option.noConfusion h
        · injection hz with hz2
          exact absurd hz2.symm hne
    · constructor
      · intro h
        refine Or.inr ⟨y, rfl, hy, ?_⟩
        obtain ⟨d⟩ := y
        rw [clean_title, if_neg hy] at h
        injection h with h2
        injection h2
      · rintro (h | ⟨z, hz, hne, hfix⟩)
        · exact Option.noConfusion h
        · injection hz with hz2
          subst hz2
          rw [clean_title, if_neg hne, hfix]

/-- C8 (witness): the amended characterization applied at the already-clean
title `"Jailer"` (a non-empty fixpoint of the cleanup pass, hence
idempotent). -/
theorem C8_witness :
    clean_title (clean_title (some "Jailer")) = clean_title (some "Jailer") :=
  (C8_amended (some "Jailer")).mpr
    (Or.inr ⟨"Jailer", by decide, by decide, by decide⟩)

/-! ## Claim C9 -/

/-- C9: the `lru_cache` on `fetch_page` memoizes failures exactly like
successes.  (i) A fetch of an uncached URL whose request fails stores
`(url, None)` as the most recent cache entry (and logs the one upstream
attempt); (ii) while any entry for the URL is present — in particular a
`None` one — a fetch returns the memoized value with **no** upstream
attempt, merely promoting the entry; (iii) the cache never exceeds 128
entries on insertion, so a memoized failure persists only until LRU
eviction. -/
theorem C9_confirmed (env : Env) (c : Cache) (u : String) :
    (cacheGet c u = none → env.net u = none →
      fetch_page env c u = (none, ((u, none) :: c).take 128, [u]) ∧
        cacheGet (fetch_page env c u).2.1 u = some none) ∧
    (∀ v, cacheGet c u = some v → fetch_page env c u = (v, promote c u, [])) ∧
    (cacheGet c u = none → ((fetch_page env c u).2.1).length ≤ 128) := by
  refine ⟨?_, ?_, ?_⟩
  · intro hm hn
    have h1 : fetch_page env c u = (none, ((u, none) :: c).take 128, [u]) := by
      rw [fetch_page, hm, hn]
    refine ⟨h1, ?_⟩
    rw [h1]
    have h2 : ((u, (none : Option Content)) :: c).take 128 =
        (u, (none : Option Content)) :: c.take 127 := rfl
    dsimp only
    rw [h2, cacheGet]
    simp
  · intro v hv
    rw [fetch_page, hv]
  · intro hm
    rw [fetch_page, hm]
    dsimp only
    exact List.length_take_le 128 _

/-- C9 (witness): a failed fetch of a concrete URL is memoized as `None` and
the repeat fetch returns it without a new attempt. -/
theorem C9_witness :
    fetch_page emptyEnv [] "https://e.test/a" =
      (none, [("https://e.test/a", none)], ["https://e.test/a"]) ∧
    fetch_page emptyEnv [("https://e.test/a", none)] "https://e.test/a" =
      (none, [("https://e.test/a", none)], []) := by
  constructor
  · have h := ((C9_confirmed emptyEnv [] "https://e.test/a").1 (by decide) (by decide)).1
    exact h.trans (by decide)
  · have h := (C9_confirmed emptyEnv [("https://e.test/a", none)] "https://e.test/a").2.1
      none (by decide)
    exact h.trans (by decide)

/-! ## Claim C10 -/

/-- C10 (counterexample): for the href `/watch/go-2023/abc` the described
derivation produces the non-empty normalized candidate `"Go"`, yet the block
is **not** given that title: the line-148 re-check (`len(title) <= 4`)
discards it and falls back to the detail page, which is unreachable here, so
the sentinel is returned.  This refutes "either candidate is then normalized
and, if non-empty, used as the title". -/
theorem C10_counterexample :
    hrefTitle "/watch/go-2023/abc" = some "Go" ∧
    (process_movie_block emptyEnv [] c10Bad).1 =
      Except.ok (some ⟨"Untitled Movie (Title Not Found)", "g.jpg",
                       "https://einthusan.tv/watch/go-2023/abc"⟩) := by
  decide

/-- C10 (amended): when the three title sources fail, the href-derived
candidate (`hrefTitle`: the `/watch/` slug percent-decoded, hyphens to
spaces, numeric words dropped, words capitalized — or the `title=` value
percent-decoded, `+` to space, title-cased — then normalized) is computed
before any detail-page fetch; it becomes the final title, with no fetch at
all, only when it survives the line-148 re-check (truthy, longer than 4
characters, not purely numeric, not an `Untitled` sentinel); otherwise the
detail-page fallback still runs and its outcome (or the sentinel) replaces
the candidate. -/
theorem C10_amended (env : Env) (c : Cache) (b : Block) (lt it : Tag)
    (href src : String)
    (hl : b.link = some lt) (hi : b.img = some it)
    (hh : lt.getAttr "href" = some href) (hs : it.getAttr "src" = some src)
    (hts : titleFromSources b it = none) :
    (needsDetail (hrefTitle href) = false →
      process_movie_block env c b =
        (Except.ok (some ⟨(hrefTitle href).getD "", src,
                          "https://einthusan.tv" ++ href⟩), c, [])) ∧
    (needsDetail (hrefTitle href) = true →
      process_movie_block env c b =
        (match get_title_from_movie_page env c ("https://einthusan.tv" ++ href) none with
         | (accurate, c2, lg) =>
           (Except.ok (some ⟨if truthyS accurate then accurate.getD ""
                             else "Untitled Movie (Title Not Found)", src,
                             "https://einthusan.tv" ++ href⟩), c2, lg))) := by
  obtain ⟨bl, bi, bt⟩ := b
  dsimp only at hl hi hts
  subst hl; subst hi
  constructor
  · intro hnd
    simp only [process_movie_block, hh, hts, Option.none_orElse, hnd,
      Bool.false_eq_true, if_false, hs]
  · intro hnd
    simp only [process_movie_block, hh, hts, Option.none_orElse, hnd, if_true]
    rcases hg : get_title_from_movie_page env c ("https://einthusan.tv" ++ href) none
      with ⟨acc, cc, lgg⟩
    dsimp only
    rw [hs]

/-- C10 (witness): the amended theorem at `c10Good`, whose slug yields the
accepted candidate `"Super Hero Film"`; the block is titled by it with no
fetch. -/
theorem C10_witness :
    process_movie_block emptyEnv [] c10Good =
      (Except.ok (some ⟨"Super Hero Film", "i.jpg",
                        "https://einthusan.tv/watch/super-hero-film-2024/x"⟩), [], []) := by
  have h := (C10_amended emptyEnv [] c10Good
    ⟨[("href", "/watch/super-hero-film-2024/x")], ""⟩
    ⟨[("src", "i.jpg")], ""⟩
    "/watch/super-hero-film-2024/x" "i.jpg"
    rfl rfl (by decide) (by decide) (by decide)).1 (by decide)
  exact h.trans (by decide)

end App
